import Mathlib

/-!
Shallow embedding of the generic LLM worker (src/unnamed/part_000, with the
type declarations of src/unnamed/part_001).

The model runtime (`tokenizer.apply_chat_template` + `model.generate` +
`batch_decode`, i.e. the body of `_generate` up to the result) is an external
collaborator; it is modelled as an opaque function parameter `gen` from the
message list, the optional decoding cache and the merged generation settings
to either a runtime error or an `InternalGenerationResult`.  JavaScript
numbers that only carry measurements (temperatures, tokens/second,
timestamps) are modelled as rationals; the decoding cache is an opaque type
parameter `C`; the `Map` backing the session store is modelled as an
association list.
-/

namespace LLMWorker

/-- Role of a conversation message (src/unnamed/part_001, `Message.role`). -/
inductive Role where
  | system
  | user
  | assistant
deriving DecidableEq, Repr

/-- Conversation message (src/unnamed/part_001, `Message`). -/
structure Message where
  role : Role
  content : String
deriving DecidableEq, Repr

/-- Generation settings with every key present (the shape of
`DEFAULT_GENERATION_CONFIG` and of the merged per-call settings). -/
structure GenerationConfig where
  do_sample : Bool
  temperature : ℚ
  top_p : ℚ
  max_new_tokens : ℕ
  repetition_penalty : ℚ
deriving DecidableEq, Repr

/-- Per-call (or per-initialization) overrides: every key optional
(src/unnamed/part_001, `GenerationConfig` with all fields `?`). -/
structure GenerationConfigOverrides where
  do_sample : Option Bool := none
  temperature : Option ℚ := none
  top_p : Option ℚ := none
  max_new_tokens : Option ℕ := none
  repetition_penalty : Option ℚ := none
deriving DecidableEq, Repr

/-- Default generation parameters (src/unnamed/part_000 lines 75-81). -/
def DEFAULT_GENERATION_CONFIG : GenerationConfig :=
  { do_sample := true
    temperature := 7/10
    top_p := 9/10
    max_new_tokens := 1024
    repetition_penalty := 11/10 }

/-- Key-by-key merge `{ ...base, ...o }` of a full settings object with an
overrides object: a key present in the override wins, otherwise the base
value is kept (object spread semantics for these five keys). -/
def mergeConfig (base : GenerationConfig) (o : GenerationConfigOverrides) :
    GenerationConfig :=
  { do_sample := o.do_sample.getD base.do_sample
    temperature := o.temperature.getD base.temperature
    top_p := o.top_p.getD base.top_p
    max_new_tokens := o.max_new_tokens.getD base.max_new_tokens
    repetition_penalty := o.repetition_penalty.getD base.repetition_penalty }

/-- Default system message for chat mode (src/unnamed/part_000 lines 84-87). -/
def DEFAULT_SYSTEM_MESSAGE : Message :=
  { role := .system
    content := "You are a helpful AI assistant. Provide clear, concise, and accurate responses." }

/-- Shorthand for a user-role message. -/
def userMsg (m : String) : Message := { role := .user, content := m }

/-- Shorthand for an assistant-role message. -/
def assistantMsg (t : String) : Message := { role := .assistant, content := t }

/-- Session data (src/unnamed/part_001, `SessionData`): message history,
nullable decoding cache, creation timestamp. -/
structure SessionData (C : Type) where
  messages : List Message
  pastKeyValues : Option C
  createdAt : ℕ
deriving DecidableEq, Repr

/-- Session info returned by `getSessionInfo` (src/unnamed/part_001,
`SessionInfo`). -/
structure SessionInfo where
  messageCount : ℕ
  createdAt : ℕ
  hasPastKeyValues : Bool
deriving DecidableEq, Repr

/-- Lookup in the session store (`Map.get` / `Map.has`), modelled on an
association list keyed by session id. -/
def storeGet {C : Type} : List (String × SessionData C) → String → Option (SessionData C)
  | [], _ => none
  | (k, v) :: rest, id => if k = id then some v else storeGet rest id

/-- Update/insert in the session store (`Map.set`): replaces the entry for an
existing key, otherwise appends a fresh entry. -/
def storeSet {C : Type} : List (String × SessionData C) → String → SessionData C →
    List (String × SessionData C)
  | [], id, s => [(id, s)]
  | (k, v) :: rest, id, s =>
      if k = id then (k, s) :: rest else (k, v) :: storeSet rest id s

/-- State of the `GenericLLMPipeline` singleton: whether the tokenizer and
model are loaded (non-null), the process-wide generation settings
(`this.config`, established at initialize), and the session store
(`this.sessionHistory`). -/
structure PipelineState (C : Type) where
  hasTokenizer : Bool
  hasModel : Bool
  config : GenerationConfig
  sessions : List (String × SessionData C)
deriving DecidableEq, Repr

/-- Write one session into the pipeline state's store. -/
def setSession {C : Type} (st : PipelineState C) (id : String) (s : SessionData C) :
    PipelineState C :=
  { st with sessions := storeSet st.sessions id s }

/-- The message a fresh session is seeded with (src/unnamed/part_000 lines
183-185): the custom system message when given, else the default. -/
def initialSystemMessage : Option String → Message
  | some m => { role := .system, content := m }
  | none => DEFAULT_SYSTEM_MESSAGE

/-- The `getSession` method (src/unnamed/part_000 lines 181-194): returns the
existing session, or creates one seeded with the custom system message when
given, else the default system message.  `now` stands for `Date.now()`. -/
def getSession {C : Type} (st : PipelineState C) (sessionId : String)
    (systemMessage : Option String) (now : ℕ) : SessionData C × PipelineState C :=
  match storeGet st.sessions sessionId with
  | some s => (s, st)
  | none =>
      let s : SessionData C := { messages := [initialSystemMessage systemMessage],
                                 pastKeyValues := none, createdAt := now }
      (s, setSession st sessionId s)

/-- Result of `_generate` (src/unnamed/part_001, `InternalGenerationResult`). -/
structure InternalGenerationResult (C : Type) where
  text : String
  pastKeyValues : Option C
  tokensPerSecond : ℚ
deriving DecidableEq, Repr

/-- The opaque model runtime as seen by the mode adapters: the body of
`_generate` (templating, `model.generate`, decoding).  It receives the message
list, the prior cache and the merged settings and either throws (an error
message) or returns an `InternalGenerationResult`. -/
def Runtime (C : Type) : Type :=
  List Message → Option C → GenerationConfig → Except String (InternalGenerationResult C)

/-- Errors a generation call can surface: the explicit "Model not
initialized" throw, or a propagated runtime failure. -/
inductive GenError where
  | uninitialized
  | runtime (msg : String)
deriving DecidableEq, Repr

/-- Options of `generateChat` (src/unnamed/part_001,
`ChatGenerationOptions`), without the callbacks. -/
structure ChatOptions where
  message : String
  sessionId : String := "default"
  systemMessage : Option String := none
  generationConfig : GenerationConfigOverrides := {}
deriving DecidableEq, Repr

/-- Result of `generateChat` (src/unnamed/part_001, `ChatGenerationResult`). -/
structure ChatGenerationResult where
  text : String
  sessionId : String
  messageCount : ℕ
  tokensPerSecond : ℚ
deriving DecidableEq, Repr

/-- Options of `generateSingle` (src/unnamed/part_001,
`SingleGenerationOptions`), without the callbacks. -/
structure SingleOptions where
  prompt : String
  systemMessage : Option String := none
  generationConfig : GenerationConfigOverrides := {}
deriving DecidableEq, Repr

/-- Result of `generateSingle` (src/unnamed/part_001,
`SingleGenerationResult`). -/
structure SingleGenerationResult where
  text : String
  tokensPerSecond : ℚ
deriving DecidableEq, Repr

/-- What `generateChat` has done just before it calls `_generate`
(src/unnamed/part_000 lines 222-235): the session is looked up or created,
the user turn is pushed into it, and the settings are merged.  `session` is
the session as stored at that point (user turn included, cache untouched);
`state` is the pipeline state at that point; `config` is the merged settings;
the arguments passed on to `_generate` are `session.messages`,
`session.pastKeyValues` and `config`. -/
structure ChatPrep (C : Type) where
  state : PipelineState C
  session : SessionData C
  config : GenerationConfig
deriving DecidableEq, Repr

/-- The pre-generation phase of `generateChat`: get-or-create the session,
append the user message, merge the settings. -/
def chatPrep {C : Type} (st : PipelineState C) (opts : ChatOptions) (now : ℕ) :
    ChatPrep C :=
  let (session, st₁) := getSession st opts.sessionId opts.systemMessage now
  let session' : SessionData C :=
    { session with messages := session.messages ++ [userMsg opts.message] }
  { state := setSession st₁ opts.sessionId session'
    session := session'
    config := mergeConfig st.config opts.generationConfig }

/-- The `generateChat` method (src/unnamed/part_000 lines 208-247), with the
runtime abstracted as `gen`.  Returns the thrown error or the result,
together with the pipeline state as it stands when the call ends (mutations
made before a throw persist, as they do on the JavaScript object). -/
def generateChat {C : Type} (gen : Runtime C) (st : PipelineState C)
    (opts : ChatOptions) (now : ℕ) :
    Except GenError ChatGenerationResult × PipelineState C :=
  if st.hasModel && st.hasTokenizer then
    let prep := chatPrep st opts now
    match gen prep.session.messages prep.session.pastKeyValues prep.config with
    | .error e => (.error (.runtime e), prep.state)
    | .ok r =>
        let finalSession : SessionData C :=
          { messages := prep.session.messages ++ [assistantMsg r.text]
            pastKeyValues := r.pastKeyValues
            createdAt := prep.session.createdAt }
        (.ok { text := r.text
               sessionId := opts.sessionId
               messageCount := finalSession.messages.length
               tokensPerSecond := r.tokensPerSecond },
         setSession prep.state opts.sessionId finalSession)
  else
    (.error .uninitialized, st)

/-- The throwaway message list built by `generateSingle`
(src/unnamed/part_000 lines 265-270). -/
def singleMessages (opts : SingleOptions) : List Message :=
  (match opts.systemMessage with
   | some m => [{ role := .system, content := m }]
   | none => []) ++ [userMsg opts.prompt]

/-- The `generateSingle` method (src/unnamed/part_000 lines 252-285): builds
a throwaway message list, calls the runtime with no prior cache, and never
touches the session store. -/
def generateSingle {C : Type} (gen : Runtime C) (st : PipelineState C)
    (opts : SingleOptions) :
    Except GenError SingleGenerationResult × PipelineState C :=
  if st.hasModel && st.hasTokenizer then
    match gen (singleMessages opts) none (mergeConfig st.config opts.generationConfig) with
    | .error e => (.error (.runtime e), st)
    | .ok r => (.ok { text := r.text, tokensPerSecond := r.tokensPerSecond }, st)
  else
    (.error .uninitialized, st)

/-- The `getSessionInfo` method (src/unnamed/part_000 lines 378-387). -/
def getSessionInfo {C : Type} (st : PipelineState C) (sessionId : String) :
    Option SessionInfo :=
  (storeGet st.sessions sessionId).map fun s =>
    { messageCount := s.messages.length
      createdAt := s.createdAt
      hasPastKeyValues := s.pastKeyValues.isSome }

/-- Token statistics handed to the token-rate observer (src/unnamed/part_001,
`TokenStats`). -/
structure TokenStats where
  tokensPerSecond : ℚ
  tokenCount : ℕ
deriving DecidableEq, Repr

/-- Local state of `_generate` threaded through the token callback:
`startTime` (unset until the first token) and `numTokens`. -/
structure TokenCbState where
  startTime : Option ℚ
  numTokens : ℕ
deriving DecidableEq, Repr

/-- One invocation of `tokenCallbackFunction` (src/unnamed/part_000 lines
306-312) at wall-clock time `now`: `startTime ??= performance.now()`,
post-increment `numTokens++`, and when the pre-increment count was positive,
emit `{ tokensPerSecond := numTokens / (now - startTime) * 1000, tokenCount
:= numTokens }` with the already-incremented count. -/
def tokenCallbackStep (st : TokenCbState) (now : ℚ) : TokenCbState × Option TokenStats :=
  let startTime := st.startTime.getD now
  let n := st.numTokens + 1
  if st.numTokens > 0 then
    (⟨some startTime, n⟩, some ⟨(n / (now - startTime)) * 1000, n⟩)
  else
    (⟨some startTime, n⟩, none)

/-- Run the token callback once per generated token, given the wall-clock
times at which the tokens arrive; collect the observer invocations in
order. -/
def runTokenCallbacks : TokenCbState → List ℚ → List TokenStats
  | _, [] => []
  | st, t :: ts =>
      let (st', ev) := tokenCallbackStep st t
      ev.toList ++ runTokenCallbacks st' ts

/-- Observer invocations of a whole generation call that emits its tokens at
the given times (state starts as `startTime` unset, `numTokens = 0`). -/
def tokenEvents (times : List ℚ) : List TokenStats :=
  runTokenCallbacks ⟨none, 0⟩ times

/-- The invocations the spec describes, for tokens arriving at the given
times, where the first token arrived at time `t₁` and the next token to
arrive is token number `k`: one invocation per token, with rate
`k / (elapsed ms since the first token) * 1000` and the current count `k`. -/
def specTokenEvents (t₁ : ℚ) : ℕ → List ℚ → List TokenStats
  | _, [] => []
  | k, t :: ts => ⟨((k : ℚ) / (t - t₁)) * 1000, k⟩ :: specTokenEvents t₁ (k + 1) ts

/-- The assistant-turn marker `'assistant\n'` the final decoded text is split
on (src/unnamed/part_000 line 349), as a character list. -/
def assistantMarker : List Char :=
  ['a', 's', 's', 'i', 's', 't', 'a', 'n', 't', '\n']

/-- JavaScript `s.split('assistant\n')` on a character list: splits at each
left-to-right non-overlapping occurrence of the marker; never returns an
empty list. -/
def splitOnMarker : List Char → List (List Char)
  | [] => [[]]
  | c :: cs =>
      if assistantMarker.isPrefixOf (c :: cs) then
        [] :: splitOnMarker ((c :: cs).drop assistantMarker.length)
      else
        match splitOnMarker cs with
        | [] => [[c]]
        | h :: t => (c :: h) :: t
termination_by s => s.length
decreasing_by
  · simp [assistantMarker]; omega
  · simp

/-- Whether the marker occurs anywhere in the character list. -/
def containsMarker : List Char → Bool
  | [] => false
  | c :: cs => assistantMarker.isPrefixOf (c :: cs) || containsMarker cs

/-- JavaScript `String.prototype.trim` on a character list (whitespace
stripped from both ends). -/
def trimChars (s : List Char) : List Char :=
  ((s.dropWhile Char.isWhitespace).reverse.dropWhile Char.isWhitespace).reverse

/-- The final-text cleanup of `_generate` (src/unnamed/part_000 line 349):
`decoded[0].split('assistant\n').pop()?.trim() || generatedText` — the last
split segment, trimmed, falling back to the accumulated streamed text when
the trimmed segment is empty. -/
def cleanFinalText (decoded generated : List Char) : List Char :=
  let t := trimChars ((splitOnMarker decoded).getLastD [])
  if t = [] then generated else t

/-- Outbound worker message as far as the unknown-type path is concerned:
`{type, status, data}` with the error payload when present
(src/unnamed/part_000 lines 645-649). -/
structure WorkerMessageOut where
  msgType : String
  status : String
  error : Option String
deriving DecidableEq, Repr

/-- The request types that have a handler of their own in `messageHandlers`
(src/unnamed/part_000 lines 394-636). -/
def recognizedTypes : List String :=
  ["check", "initialize", "generateChat", "generateSingle", "interrupt",
   "clearSession", "getSessionInfo", "getModels"]

/-- Keys the object literal `messageHandlers` inherits from
`Object.prototype`: the lookup `messageHandlers[type]` walks the prototype
chain, and for each of these keys it yields a truthy value (a function, or
for `__proto__` the prototype object itself) even though no handler of that
name exists. -/
def objectPrototypeKeys : List String :=
  ["constructor", "hasOwnProperty", "isPrototypeOf", "propertyIsEnumerable",
   "toLocaleString", "toString", "valueOf",
   "__defineGetter__", "__defineSetter__", "__lookupGetter__",
   "__lookupSetter__", "__proto__"]

/-- The message listener (src/unnamed/part_000 lines 639-651).  The dispatch
check `if (messageHandlers[type])` is a JavaScript property lookup through
the prototype chain: a recognized type is dispatched to its handler
(abstracted as `handlerEvents`, the messages that handler posts); a type
naming a truthy inherited `Object.prototype` member also takes the handler
branch, where the program calls that inherited member, which posts no
message at all (for `__proto__` the call even throws without posting); only
a type missing from the entire chain posts the single
`{type: 'error', status: 'error', data: {error: 'Unknown message type: ...'}}`
message. -/
def messageListener (handlerEvents : String → List WorkerMessageOut) (t : String) :
    List WorkerMessageOut :=
  if t ∈ recognizedTypes then handlerEvents t
  else if t ∈ objectPrototypeKeys then []
  else [{ msgType := "error", status := "error",
          error := some ("Unknown message type: " ++ t) }]

/-- Message list of a sequence of completed chat turns: each turn contributes
a user message followed by the assistant reply. -/
def turnMessages : List (String × String) → List Message
  | [] => []
  | (u, a) :: ts => userMsg u :: assistantMsg a :: turnMessages ts

/-- The role the other party answers with. -/
def toggleRole : Role → Role
  | .user => .assistant
  | .assistant => .user
  | .system => .system

/-- Whether a message list alternates roles starting with `r`. -/
def altFrom : Role → List Message → Bool
  | _, [] => true
  | r, m :: rest => decide (m.role = r) && altFrom (toggleRole r) rest

/-- Whether a message list begins with a system message and alternates
user/assistant after it. -/
def startsSystemAlternates : List Message → Bool
  | [] => false
  | m :: rest => decide (m.role = .system) && altFrom .user rest

/-- Run a sequence of chat generation calls, all on session `id`; each list
entry carries the call options and the `Date.now()` of the call.  Returns the
final pipeline state when every call completed successfully, `none` as soon
as one call reports an error. -/
def runChats {C : Type} (gen : Runtime C) (id : String) :
    List (ChatOptions × ℕ) → PipelineState C → Option (PipelineState C)
  | [], st => some st
  | (o, now) :: rest, st =>
      match generateChat gen st { o with sessionId := id } now with
      | (.ok _, st') => runChats gen id rest st'
      | (.error _, _) => none

/-! ## Helper lemmas about the session store and the chat adapter -/

lemma storeGet_storeSet_self {C : Type} (l : List (String × SessionData C))
    (id : String) (s : SessionData C) : storeGet (storeSet l id s) id = some s := by
  induction l with
  | nil => simp [storeSet, storeGet]
  | cons kv rest ih =>
      obtain ⟨k, v⟩ := kv
      by_cases hk : k = id
      · simp [storeSet, storeGet, hk]
      · simp [storeSet, storeGet, hk, ih]

lemma setSession_hasModel {C : Type} (st : PipelineState C) (id : String)
    (s : SessionData C) : (setSession st id s).hasModel = st.hasModel := rfl

lemma setSession_hasTokenizer {C : Type} (st : PipelineState C) (id : String)
    (s : SessionData C) : (setSession st id s).hasTokenizer = st.hasTokenizer := rfl

lemma setSession_config {C : Type} (st : PipelineState C) (id : String)
    (s : SessionData C) : (setSession st id s).config = st.config := rfl

lemma storeGet_setSession_self {C : Type} (st : PipelineState C) (id : String)
    (s : SessionData C) : storeGet (setSession st id s).sessions id = some s :=
  storeGet_storeSet_self _ _ _

lemma getSession_existing_eq {C : Type} {st : PipelineState C} {id : String}
    {s : SessionData C} (sysM : Option String) (now : ℕ)
    (hs : storeGet st.sessions id = some s) :
    getSession st id sysM now = (s, st) := by
  simp [getSession, hs]

lemma getSession_fresh_eq {C : Type} {st : PipelineState C} {id : String}
    (sysM : Option String) (now : ℕ) (hs : storeGet st.sessions id = none) :
    getSession st id sysM now =
      (⟨[initialSystemMessage sysM], none, now⟩,
       setSession st id ⟨[initialSystemMessage sysM], none, now⟩) := by
  simp [getSession, hs]

lemma chatPrep_existing {C : Type} {st : PipelineState C} {opts : ChatOptions}
    {s : SessionData C} (now : ℕ)
    (hs : storeGet st.sessions opts.sessionId = some s) :
    chatPrep st opts now =
      { state := setSession st opts.sessionId
          { s with messages := s.messages ++ [userMsg opts.message] }
        session := { s with messages := s.messages ++ [userMsg opts.message] }
        config := mergeConfig st.config opts.generationConfig } := by
  simp [chatPrep, getSession_existing_eq _ _ hs]

lemma generateChat_error_eq {C : Type} {gen : Runtime C} {st : PipelineState C}
    {opts : ChatOptions} {now : ℕ} {e : String}
    (hm : st.hasModel = true) (ht : st.hasTokenizer = true)
    (hgen : gen (chatPrep st opts now).session.messages
        (chatPrep st opts now).session.pastKeyValues
        (chatPrep st opts now).config = .error e) :
    generateChat gen st opts now = (.error (.runtime e), (chatPrep st opts now).state) := by
  simp [generateChat, hm, ht, hgen]

lemma generateChat_ok_eq {C : Type} {gen : Runtime C} {st : PipelineState C}
    {opts : ChatOptions} {now : ℕ} {r : InternalGenerationResult C}
    (hm : st.hasModel = true) (ht : st.hasTokenizer = true)
    (hgen : gen (chatPrep st opts now).session.messages
        (chatPrep st opts now).session.pastKeyValues
        (chatPrep st opts now).config = .ok r) :
    generateChat gen st opts now =
      (.ok { text := r.text
             sessionId := opts.sessionId
             messageCount := ((chatPrep st opts now).session.messages ++
               [assistantMsg r.text]).length
             tokensPerSecond := r.tokensPerSecond },
       setSession (chatPrep st opts now).state opts.sessionId
         { messages := (chatPrep st opts now).session.messages ++ [assistantMsg r.text]
           pastKeyValues := r.pastKeyValues
           createdAt := (chatPrep st opts now).session.createdAt }) := by
  simp [generateChat, hm, ht, hgen]

lemma turnMessages_append_pair (ts : List (String × String)) (u a : String) :
    turnMessages (ts ++ [(u, a)]) = turnMessages ts ++ [userMsg u, assistantMsg a] := by
  induction ts with
  | nil => rfl
  | cons p rest ih => obtain ⟨x, y⟩ := p; simp [turnMessages, ih]

lemma turnMessages_length (ts : List (String × String)) :
    (turnMessages ts).length = 2 * ts.length := by
  induction ts with
  | nil => rfl
  | cons p rest ih => obtain ⟨x, y⟩ := p; simp [turnMessages, ih]; ring

lemma altFrom_turnMessages (ts : List (String × String)) :
    altFrom .user (turnMessages ts) = true := by
  induction ts with
  | nil => rfl
  | cons p rest ih =>
      obtain ⟨x, y⟩ := p
      simp [turnMessages, altFrom, toggleRole, userMsg, assistantMsg, ih]

lemma startsSystemAlternates_turns {m : Message} (ts : List (String × String))
    (hm : m.role = .system) :
    startsSystemAlternates (m :: turnMessages ts) = true := by
  simp [startsSystemAlternates, hm, altFrom_turnMessages]

lemma initialSystemMessage_role (sysM : Option String) :
    (initialSystemMessage sysM).role = .system := by
  cases sysM <;> rfl

lemma runChats_invariant {C : Type} (gen : Runtime C) (id : String)
    (calls : List (ChatOptions × ℕ)) :
    ∀ (st st' : PipelineState C) (s : SessionData C) (m₀ : Message)
      (ts : List (String × String)),
      st.hasModel = true → st.hasTokenizer = true →
      storeGet st.sessions id = some s → s.messages = m₀ :: turnMessages ts →
      runChats gen id calls st = some st' →
      ∃ (ts' : List (String × String)) (s' : SessionData C),
        storeGet st'.sessions id = some s' ∧
        s'.messages = m₀ :: turnMessages (ts ++ ts') ∧
        ts'.length = calls.length := by
  induction calls with
  | nil =>
      intro st st' s m₀ ts hm ht hs hmsg hrun
      refine ⟨[], s, ?_, ?_, ?_⟩ <;> simp_all [runChats]
  | cons c rest ih =>
      intro st st' s m₀ ts hm ht hs hmsg hrun
      obtain ⟨o, now⟩ := c
      set opts : ChatOptions := { o with sessionId := id } with hopts
      have hsid : opts.sessionId = id := rfl
      have hs' : storeGet st.sessions opts.sessionId = some s := by rw [hsid]; exact hs
      have hprep := @chatPrep_existing C st opts s now hs'
      cases hgen : gen (chatPrep st opts now).session.messages
          (chatPrep st opts now).session.pastKeyValues (chatPrep st opts now).config with
      | error e =>
          rw [runChats, generateChat_error_eq hm ht hgen] at hrun
          exact absurd hrun (by simp)
      | ok r =>
          rw [runChats, generateChat_ok_eq hm ht hgen] at hrun
          set sFinal : SessionData C :=
            { messages := (chatPrep st opts now).session.messages ++ [assistantMsg r.text]
              pastKeyValues := r.pastKeyValues
              createdAt := (chatPrep st opts now).session.createdAt } with hsFinal
          set st₂ : PipelineState C :=
            setSession (chatPrep st opts now).state opts.sessionId sFinal with hst₂
          have hm₂ : st₂.hasModel = true := by
            rw [hst₂, setSession_hasModel, hprep]; exact hm
          have ht₂ : st₂.hasTokenizer = true := by
            rw [hst₂, setSession_hasTokenizer, hprep]; exact ht
          have hs₂ : storeGet st₂.sessions id = some sFinal := by
            rw [hst₂, ← hsid]; exact storeGet_setSession_self _ _ _
          have hmsg₂ : sFinal.messages =
              m₀ :: turnMessages (ts ++ [(opts.message, r.text)]) := by
            rw [hsFinal, hprep]
            simp [hmsg, turnMessages_append_pair]
          obtain ⟨ts', s', h1, h2, h3⟩ :=
            ih st₂ st' sFinal m₀ (ts ++ [(opts.message, r.text)]) hm₂ ht₂ hs₂ hmsg₂ hrun
          refine ⟨(opts.message, r.text) :: ts', s', h1, ?_, ?_⟩
          · rw [h2]; simp
          · simp [h3]

/-! ## Helper lemmas about the token-rate observer -/

lemma runTokenCallbacks_started (s : ℚ) :
    ∀ (ts : List ℚ) (n : ℕ), 0 < n →
      runTokenCallbacks ⟨some s, n⟩ ts = specTokenEvents s (n + 1) ts := by
  intro ts
  induction ts with
  | nil => intro n _; rfl
  | cons t rest ih =>
      intro n hn
      have hstep : tokenCallbackStep ⟨some s, n⟩ t =
          (⟨some s, n + 1⟩, some ⟨((n + 1 : ℕ) : ℚ) / (t - s) * 1000, n + 1⟩) := by
        simp [tokenCallbackStep, hn]
      rw [runTokenCallbacks, hstep]
      dsimp only
      rw [ih (n + 1) (Nat.succ_pos n)]
      rfl

/-! ## Helper lemmas about the final-text cleanup -/

lemma splitOnMarker_nil : splitOnMarker [] = [[]] := by
  rw [splitOnMarker]

lemma splitOnMarker_cons_pos {c : Char} {cs : List Char}
    (h : assistantMarker.isPrefixOf (c :: cs) = true) :
    splitOnMarker (c :: cs) =
      [] :: splitOnMarker ((c :: cs).drop assistantMarker.length) := by
  rw [splitOnMarker]
  simp [h]

lemma splitOnMarker_cons_neg {c : Char} {cs : List Char}
    (h : assistantMarker.isPrefixOf (c :: cs) = false) :
    splitOnMarker (c :: cs) =
      match splitOnMarker cs with
      | [] => [[c]]
      | hd :: t => (c :: hd) :: t := by
  rw [splitOnMarker]
  simp [h]

lemma splitOnMarker_ne_nil (s : List Char) : splitOnMarker s ≠ [] := by
  match s with
  | [] => simp [splitOnMarker_nil]
  | c :: cs =>
      cases h : assistantMarker.isPrefixOf (c :: cs) with
      | true => rw [splitOnMarker_cons_pos h]; simp
      | false =>
          rw [splitOnMarker_cons_neg h]
          cases splitOnMarker cs <;> simp

lemma splitOnMarker_not_contains {s : List Char} (h : containsMarker s = false) :
    splitOnMarker s = [s] := by
  induction s with
  | nil => exact splitOnMarker_nil
  | cons c cs ih =>
      rw [containsMarker, Bool.or_eq_false_iff] at h
      rw [splitOnMarker_cons_neg h.1, ih h.2]

lemma two_le_splitOnMarker_of_contains :
    ∀ s : List Char, containsMarker s = true → 2 ≤ (splitOnMarker s).length := by
  intro s hs
  match s with
  | [] => simp [containsMarker] at hs
  | c :: cs =>
      cases h : assistantMarker.isPrefixOf (c :: cs) with
      | true =>
          rw [splitOnMarker_cons_pos h]
          have := splitOnMarker_ne_nil ((c :: cs).drop assistantMarker.length)
          have := List.length_pos.mpr this
          simp only [List.length_cons]
          omega
      | false =>
          rw [containsMarker, h, Bool.false_or] at hs
          rw [splitOnMarker_cons_neg h]
          have h2 := two_le_splitOnMarker_of_contains cs hs
          cases hsp : splitOnMarker cs with
          | nil => exact absurd hsp (splitOnMarker_ne_nil cs)
          | cons hd t => rw [hsp] at h2; simpa using h2

lemma marker_isPrefixOf_append (b : List Char) :
    assistantMarker.isPrefixOf (assistantMarker ++ b) = true := by
  rw [List.isPrefixOf_iff_prefix]
  exact List.prefix_append _ _

lemma containsMarker_append (a b : List Char) :
    containsMarker (a ++ (assistantMarker ++ b)) = true := by
  induction a with
  | nil =>
      rw [List.nil_append]
      rw [show assistantMarker ++ b = 'a' ::
        (['s', 's', 'i', 's', 't', 'a', 'n', 't', '\n'] ++ b) from rfl]
      rw [containsMarker]
      rw [show 'a' :: (['s', 's', 'i', 's', 't', 'a', 'n', 't', '\n'] ++ b) =
        assistantMarker ++ b from rfl]
      rw [marker_isPrefixOf_append]
      rfl
  | cons c a' ih =>
      rw [List.cons_append, containsMarker, ih, Bool.or_true]

lemma getLastD_irrel {α : Type} {l : List α} (h : l ≠ []) (d₁ d₂ : α) :
    l.getLastD d₁ = l.getLastD d₂ := by
  cases l with
  | nil => exact absurd rfl h
  | cons a t => rw [List.getLastD_cons, List.getLastD_cons]

lemma splitOnMarker_marker_append {b : List Char} (hb : containsMarker b = false) :
    splitOnMarker (assistantMarker ++ b) = [[], b] := by
  rw [show assistantMarker ++ b =
    'a' :: ('s' :: 's' :: 'i' :: 's' :: 't' :: 'a' :: 'n' :: 't' :: '\n' :: b) from rfl]
  rw [splitOnMarker_cons_pos (by
    rw [show 'a' :: ('s' :: 's' :: 'i' :: 's' :: 't' :: 'a' :: 'n' :: 't' :: '\n' :: b) =
      assistantMarker ++ b from rfl]
    exact marker_isPrefixOf_append b)]
  rw [show ('a' :: ('s' :: 's' :: 'i' :: 's' :: 't' :: 'a' :: 'n' :: 't' :: '\n' :: b)).drop
      assistantMarker.length = b from rfl]
  rw [splitOnMarker_not_contains hb]

lemma getLastD_splitOnMarker_aux :
    ∀ (n : ℕ) (a b : List Char), a.length ≤ n → containsMarker b = false →
      (splitOnMarker (a ++ (assistantMarker ++ b))).getLastD [] = b := by
  intro n
  induction n with
  | zero =>
      intro a b ha hb
      have ha0 : a = [] := List.eq_nil_of_length_eq_zero (Nat.le_zero.mp ha)
      subst ha0
      rw [List.nil_append, splitOnMarker_marker_append hb]
      rfl
  | succ n ih =>
      intro a b ha hb
      cases a with
      | nil =>
          rw [List.nil_append, splitOnMarker_marker_append hb]
          rfl
      | cons c a' =>
          rw [List.cons_append]
          by_cases hp : assistantMarker.isPrefixOf (c :: (a' ++ (assistantMarker ++ b))) = true
          · by_cases hlen : 10 ≤ (c :: a').length
            · rw [splitOnMarker_cons_pos hp, List.getLastD_cons]
              have hdrop : (c :: (a' ++ (assistantMarker ++ b))).drop assistantMarker.length
                  = ((c :: a').drop 10) ++ (assistantMarker ++ b) := by
                rw [show assistantMarker.length = 10 from rfl, ← List.cons_append,
                  List.drop_append_eq_append_drop]
                rw [Nat.sub_eq_zero_of_le hlen, List.drop_zero]
              rw [hdrop]
              apply ih
              · rw [List.length_drop]
                omega
              · exact hb
            · exfalso
              rw [List.isPrefixOf_iff_prefix] at hp
              have htake := List.prefix_iff_eq_take.mp hp
              rw [show assistantMarker.length = 10 from rfl, ← List.cons_append,
                List.take_append_eq_append_take,
                List.take_of_length_le (by omega : (c :: a').length ≤ 10),
                List.take_append_eq_append_take,
                show assistantMarker.length = 10 from rfl] at htake
              have hb0 : b.take (10 - (c :: a').length - 10) = [] := by
                rw [Nat.sub_eq_zero_of_le (by omega), List.take_zero]
              rw [hb0, List.append_nil] at htake
              have hdropk := congrArg (fun l => l.drop (c :: a').length) htake
              simp only [List.drop_left] at hdropk
              have h1 : 1 ≤ (c :: a').length := by simp
              have h9 : (c :: a').length ≤ 9 := by omega
              revert hdropk
              generalize (c :: a').length = k at h1 h9
              interval_cases k <;> exact fun hdropk => absurd hdropk (by decide)
          · rw [splitOnMarker_cons_neg (Bool.eq_false_iff.mpr hp)]
            have hcont := containsMarker_append a' b
            have hrec : (splitOnMarker (a' ++ (assistantMarker ++ b))).getLastD [] = b := by
              apply ih
              · simp only [List.length_cons] at ha
                omega
              · exact hb
            cases hsp : splitOnMarker (a' ++ (assistantMarker ++ b)) with
            | nil => exact absurd hsp (splitOnMarker_ne_nil _)
            | cons hd t =>
                dsimp only
                rw [List.getLastD_cons]
                have h2 : 2 ≤ (hd :: t).length := by
                  rw [← hsp]
                  exact two_le_splitOnMarker_of_contains _ hcont
                have ht : t ≠ [] := by
                  intro hteq
                  rw [hteq] at h2
                  simp at h2
                rw [getLastD_irrel ht (c :: hd) hd]
                rw [hsp, List.getLastD_cons] at hrec
                exact hrec

lemma getLastD_splitOnMarker {a b : List Char} (hb : containsMarker b = false) :
    (splitOnMarker (a ++ (assistantMarker ++ b))).getLastD [] = b :=
  getLastD_splitOnMarker_aux a.length a b le_rfl hb

/-! ## Claim theorems -/

/-- C2: immediately after the first get of a session identifier the stored
session's message sequence has length 1 and its single message has role
system; after N successfully completed chat-mode generation calls on that
session the sequence has length 1 + 2N, and it always begins with the system
message and alternates user/assistant after it. -/
theorem chat_session_message_shape {C : Type} (gen : Runtime C) (st : PipelineState C)
    (id : String) (sysM : Option String) (now : ℕ)
    (calls : List (ChatOptions × ℕ)) (st' : PipelineState C)
    (hm : st.hasModel = true) (ht : st.hasTokenizer = true)
    (h0 : storeGet st.sessions id = none)
    (hrun : runChats gen id calls (getSession st id sysM now).2 = some st') :
    ((getSession st id sysM now).1.messages.length = 1 ∧
      startsSystemAlternates (getSession st id sysM now).1.messages = true ∧
      storeGet (getSession st id sysM now).2.sessions id =
        some (getSession st id sysM now).1) ∧
    ∃ s', storeGet st'.sessions id = some s' ∧
      s'.messages.length = 1 + 2 * calls.length ∧
      startsSystemAlternates s'.messages = true := by
  have hfresh := getSession_fresh_eq sysM now h0
  constructor
  · rw [hfresh]
    refine ⟨rfl, ?_, storeGet_setSession_self ..⟩
    exact startsSystemAlternates_turns [] (initialSystemMessage_role sysM)
  · have hstg : storeGet (getSession st id sysM now).2.sessions id =
        some ⟨[initialSystemMessage sysM], none, now⟩ := by
      rw [hfresh]
      exact storeGet_setSession_self ..
    have hm' : (getSession st id sysM now).2.hasModel = true := by
      rw [hfresh]; exact hm
    have ht' : (getSession st id sysM now).2.hasTokenizer = true := by
      rw [hfresh]; exact ht
    obtain ⟨ts', s', h1, h2, h3⟩ :=
      runChats_invariant gen id calls (getSession st id sysM now).2 st'
        ⟨[initialSystemMessage sysM], none, now⟩ (initialSystemMessage sysM) []
        hm' ht' hstg rfl hrun
    refine ⟨s', h1, ?_, ?_⟩
    · rw [h2]
      simp [turnMessages_length, h3]
      omega
    · rw [h2]
      exact startsSystemAlternates_turns _ (initialSystemMessage_role sysM)

/-- C2 witness: one successful chat call on a fresh "default" session yields
the 3-message system/user/assistant shape. -/
theorem chat_session_message_shape_witness :
    ((@getSession ℕ ⟨true, true, DEFAULT_GENERATION_CONFIG, []⟩ "default" none 0).1.messages.length = 1 ∧
      startsSystemAlternates (@getSession ℕ ⟨true, true, DEFAULT_GENERATION_CONFIG, []⟩ "default" none 0).1.messages = true ∧
      storeGet (@getSession ℕ ⟨true, true, DEFAULT_GENERATION_CONFIG, []⟩ "default" none 0).2.sessions "default" =
        some (@getSession ℕ ⟨true, true, DEFAULT_GENERATION_CONFIG, []⟩ "default" none 0).1) ∧
    ∃ s', storeGet (⟨true, true, DEFAULT_GENERATION_CONFIG,
        [("default", ⟨[DEFAULT_SYSTEM_MESSAGE, userMsg "hi", assistantMsg "ok"], some 0, 0⟩)]⟩ :
        PipelineState ℕ).sessions "default" = some s' ∧
      s'.messages.length = 1 + 2 * [(({ message := "hi" } : ChatOptions), 1)].length ∧
      startsSystemAlternates s'.messages = true :=
  chat_session_message_shape (fun _ _ _ => .ok ⟨"ok", some 0, 1⟩)
    ⟨true, true, DEFAULT_GENERATION_CONFIG, []⟩ "default" none 0
    [(({ message := "hi" } : ChatOptions), 1)]
    ⟨true, true, DEFAULT_GENERATION_CONFIG,
      [("default", ⟨[DEFAULT_SYSTEM_MESSAGE, userMsg "hi", assistantMsg "ok"], some 0, 0⟩)]⟩
    rfl rfl rfl rfl

/-- C1 counterexample: with a loaded model, an existing "default" session
holding only the system message, and a runtime that throws, `generateChat`
reports the error but the stored session is NOT what it was before the call:
the user turn remains appended (the cache, however, is not written). -/
theorem chat_runtime_error_counterexample :
    (@generateChat ℕ (fun _ _ _ => .error "boom")
        ⟨true, true, DEFAULT_GENERATION_CONFIG,
          [("default", ⟨[DEFAULT_SYSTEM_MESSAGE], none, 0⟩)]⟩
        { message := "hi" } 5).1 = .error (.runtime "boom") ∧
    storeGet (@generateChat ℕ (fun _ _ _ => .error "boom")
        ⟨true, true, DEFAULT_GENERATION_CONFIG,
          [("default", ⟨[DEFAULT_SYSTEM_MESSAGE], none, 0⟩)]⟩
        { message := "hi" } 5).2.sessions "default" =
      some ⟨[DEFAULT_SYSTEM_MESSAGE, userMsg "hi"], none, 0⟩ ∧
    some (⟨[DEFAULT_SYSTEM_MESSAGE, userMsg "hi"], none, 0⟩ : SessionData ℕ) ≠
      some (⟨[DEFAULT_SYSTEM_MESSAGE], none, 0⟩ : SessionData ℕ) :=
  ⟨rfl, rfl, by decide⟩

/-- C1 (amended): when the runtime throws during a chat call on an existing
session, the error is reported, the session's stored cache is exactly what it
was before the call (no cache write) and no assistant turn is appended, but
the user turn pushed before the runtime call remains in the session's message
sequence. -/
theorem chat_runtime_error_state {C : Type} (gen : Runtime C) (st : PipelineState C)
    (opts : ChatOptions) (now : ℕ) (e : String) (s : SessionData C)
    (hm : st.hasModel = true) (ht : st.hasTokenizer = true)
    (hs : storeGet st.sessions opts.sessionId = some s)
    (hgen : gen (s.messages ++ [userMsg opts.message]) s.pastKeyValues
        (mergeConfig st.config opts.generationConfig) = .error e) :
    (generateChat gen st opts now).1 = .error (.runtime e) ∧
    storeGet (generateChat gen st opts now).2.sessions opts.sessionId =
      some ⟨s.messages ++ [userMsg opts.message], s.pastKeyValues, s.createdAt⟩ := by
  have hprep := chatPrep_existing now hs
  have hgen' : gen (chatPrep st opts now).session.messages
      (chatPrep st opts now).session.pastKeyValues
      (chatPrep st opts now).config = .error e := by
    rw [hprep]; exact hgen
  rw [generateChat_error_eq hm ht hgen']
  refine ⟨rfl, ?_⟩
  rw [hprep]
  exact storeGet_setSession_self ..

/-- C1 witness: concrete instance of the amended statement. -/
theorem chat_runtime_error_state_witness :
    (@generateChat ℕ (fun _ _ _ => .error "boom")
        ⟨true, true, DEFAULT_GENERATION_CONFIG,
          [("default", ⟨[DEFAULT_SYSTEM_MESSAGE], none, 0⟩)]⟩
        { message := "hi" } 5).1 = .error (.runtime "boom") ∧
    storeGet (@generateChat ℕ (fun _ _ _ => .error "boom")
        ⟨true, true, DEFAULT_GENERATION_CONFIG,
          [("default", ⟨[DEFAULT_SYSTEM_MESSAGE], none, 0⟩)]⟩
        { message := "hi" } 5).2.sessions "default" =
      some ⟨[DEFAULT_SYSTEM_MESSAGE] ++ [userMsg "hi"], none, 0⟩ :=
  chat_runtime_error_state (fun _ _ _ => .error "boom")
    ⟨true, true, DEFAULT_GENERATION_CONFIG,
      [("default", ⟨[DEFAULT_SYSTEM_MESSAGE], none, 0⟩)]⟩
    { message := "hi" } 5 "boom" ⟨[DEFAULT_SYSTEM_MESSAGE], none, 0⟩
    rfl rfl rfl rfl

/-- C3: when the first chat call on a session succeeds with runtime output
cache `r₁.pastKeyValues`, the cache the coordinator receives as input on the
second chat call with the same session id (the `session.pastKeyValues`
argument `generateChat` passes to `_generate`) is exactly that cache. -/
theorem chat_cache_roundtrip {C : Type} (gen : Runtime C) (st : PipelineState C)
    (opts₁ opts₂ : ChatOptions) (now₁ now₂ : ℕ) (r₁ : InternalGenerationResult C)
    (hm : st.hasModel = true) (ht : st.hasTokenizer = true)
    (hid : opts₂.sessionId = opts₁.sessionId)
    (hgen : gen (chatPrep st opts₁ now₁).session.messages
        (chatPrep st opts₁ now₁).session.pastKeyValues
        (chatPrep st opts₁ now₁).config = .ok r₁) :
    (chatPrep (generateChat gen st opts₁ now₁).2 opts₂ now₂).session.pastKeyValues =
      r₁.pastKeyValues := by
  rw [generateChat_ok_eq hm ht hgen]
  have hs2 : storeGet (setSession (chatPrep st opts₁ now₁).state opts₁.sessionId
      ⟨(chatPrep st opts₁ now₁).session.messages ++ [assistantMsg r₁.text],
        r₁.pastKeyValues, (chatPrep st opts₁ now₁).session.createdAt⟩).sessions
      opts₂.sessionId =
      some ⟨(chatPrep st opts₁ now₁).session.messages ++ [assistantMsg r₁.text],
        r₁.pastKeyValues, (chatPrep st opts₁ now₁).session.createdAt⟩ := by
    rw [hid]
    exact storeGet_setSession_self ..
  rw [chatPrep_existing now₂ hs2]

/-- C3 witness: concrete two-call instance. -/
theorem chat_cache_roundtrip_witness :
    (chatPrep (@generateChat ℕ (fun _ _ _ => .ok ⟨"ok", some 7, 1⟩)
        ⟨true, true, DEFAULT_GENERATION_CONFIG, []⟩ { message := "hi" } 0).2
      { message := "again" } 1).session.pastKeyValues = some 7 :=
  chat_cache_roundtrip (fun _ _ _ => .ok ⟨"ok", some 7, 1⟩)
    ⟨true, true, DEFAULT_GENERATION_CONFIG, []⟩
    { message := "hi" } { message := "again" } 0 1 ⟨"ok", some 7, 1⟩
    rfl rfl rfl rfl

/-- C4: a generation call that emits at least one token (at times
`t₁ :: rest`) never invokes the token-rate observer for the first token and
invokes it exactly once per token thereafter, each time with
tokensPerSecond = tokenCount / (elapsed ms since the first token) * 1000 and
with the current token count. -/
theorem token_rate_observer_events (t₁ : ℚ) (rest : List ℚ) :
    tokenEvents (t₁ :: rest) = specTokenEvents t₁ 2 rest := by
  unfold tokenEvents
  have hstep : tokenCallbackStep ⟨none, 0⟩ t₁ = (⟨some t₁, 1⟩, none) := by
    simp [tokenCallbackStep]
  rw [runTokenCallbacks, hstep]
  dsimp only
  rw [runTokenCallbacks_started t₁ rest 1 (by omega)]
  rfl

/-- C5: a single-mode call never mutates the session store: the final state
equals the initial state, so `getSessionInfo` agrees before and after for
every id, whether the runtime succeeded or failed. -/
theorem generateSingle_session_frame {C : Type} (gen : Runtime C)
    (st : PipelineState C) (opts : SingleOptions) :
    (generateSingle gen st opts).2 = st ∧
    ∀ id, getSessionInfo (generateSingle gen st opts).2 id = getSessionInfo st id := by
  have h2 : (generateSingle gen st opts).2 = st := by
    by_cases h : (st.hasModel && st.hasTokenizer) = true
    · cases hgen : gen (singleMessages opts) none
        (mergeConfig st.config opts.generationConfig) <;>
        simp [generateSingle, h, hgen]
    · simp [generateSingle, Bool.eq_false_iff.mpr h]
  exact ⟨h2, fun id => by rw [h2]⟩

/-- C6: a generation call (chat or single) made before the model is loaded
fails with the uninitialized error and leaves the pipeline state exactly as
it was: no session is created or modified. -/
theorem uninitialized_rejected_no_mutation {C : Type} (gen : Runtime C)
    (st : PipelineState C) (chatOpts : ChatOptions) (now : ℕ)
    (singleOpts : SingleOptions)
    (h : (st.hasModel && st.hasTokenizer) = false) :
    generateChat gen st chatOpts now = (.error .uninitialized, st) ∧
    generateSingle gen st singleOpts = (.error .uninitialized, st) := by
  constructor <;> simp [generateChat, generateSingle, h]

/-- C6 witness: concrete uninitialized pipeline. -/
theorem uninitialized_rejected_no_mutation_witness :
    @generateChat ℕ (fun _ _ _ => .ok ⟨"ok", none, 0⟩)
        ⟨false, false, DEFAULT_GENERATION_CONFIG, []⟩ { message := "hi" } 0 =
      (.error .uninitialized, ⟨false, false, DEFAULT_GENERATION_CONFIG, []⟩) ∧
    @generateSingle ℕ (fun _ _ _ => .ok ⟨"ok", none, 0⟩)
        ⟨false, false, DEFAULT_GENERATION_CONFIG, []⟩ { prompt := "hi" } =
      (.error .uninitialized, ⟨false, false, DEFAULT_GENERATION_CONFIG, []⟩) :=
  uninitialized_rejected_no_mutation (fun _ _ _ => .ok ⟨"ok", none, 0⟩)
    ⟨false, false, DEFAULT_GENERATION_CONFIG, []⟩ { message := "hi" } 0
    { prompt := "hi" } rfl

/-- C7: the effective settings of a chat call are the process-wide settings
overridden key-by-key by the per-call overrides (override wins per key); in
particular defaults {temperature 0.7, max_new_tokens 1024} with override
{max_new_tokens 256} give temperature 0.7 and max_new_tokens 256. -/
theorem effective_settings_merge :
    (∀ (C : Type) (st : PipelineState C) (opts : ChatOptions) (now : ℕ),
        (chatPrep st opts now).config = mergeConfig st.config opts.generationConfig) ∧
    (∀ (base : GenerationConfig) (o : GenerationConfigOverrides),
        (mergeConfig base o).do_sample = o.do_sample.getD base.do_sample ∧
        (mergeConfig base o).temperature = o.temperature.getD base.temperature ∧
        (mergeConfig base o).top_p = o.top_p.getD base.top_p ∧
        (mergeConfig base o).max_new_tokens = o.max_new_tokens.getD base.max_new_tokens ∧
        (mergeConfig base o).repetition_penalty =
          o.repetition_penalty.getD base.repetition_penalty) ∧
    (mergeConfig DEFAULT_GENERATION_CONFIG { max_new_tokens := some 256 }).temperature
      = 7/10 ∧
    (mergeConfig DEFAULT_GENERATION_CONFIG { max_new_tokens := some 256 }).max_new_tokens
      = 256 := by
  refine ⟨fun C st opts now => rfl, fun base o => ⟨rfl, rfl, rfl, rfl, rfl⟩, rfl, rfl⟩

/-- C8: the returned final text is everything after the last occurrence of
the assistant-turn marker in the decoded sequence (`b` is that suffix: the
marker does not occur again inside it), trimmed; when the trimmed suffix is
empty the accumulated streamed text is returned instead. -/
theorem final_text_after_last_marker (a b g : List Char)
    (hb : containsMarker b = false) :
    cleanFinalText (a ++ (assistantMarker ++ b)) g =
      if trimChars b = [] then g else trimChars b := by
  unfold cleanFinalText
  rw [getLastD_splitOnMarker hb]

/-- C8 witness: a decoded sequence ending in marker + " Hi " yields "Hi". -/
theorem final_text_after_last_marker_witness :
    containsMarker [' ', 'H', 'i', ' '] = false ∧
    cleanFinalText (['x', '\n'] ++ (assistantMarker ++ [' ', 'H', 'i', ' '])) ['s'] =
      (if trimChars [' ', 'H', 'i', ' '] = [] then ['s']
       else trimChars [' ', 'H', 'i', ' ']) :=
  ⟨by decide,
   final_text_after_last_marker ['x', '\n'] [' ', 'H', 'i', ' '] ['s'] (by decide)⟩

/-- C9 counterexample: the inbound type "toString" is not a recognized
handler type, yet the lookup `messageHandlers["toString"]` finds the truthy
inherited `Object.prototype.toString`, so the listener takes the handler
branch, calls it, and emits no event at all — not the single error event the
claim requires. -/
theorem unknown_request_type_counterexample :
    "toString" ∉ recognizedTypes ∧
    messageListener (fun _ => []) "toString" = [] ∧
    messageListener (fun _ => []) "toString" ≠
      [{ msgType := "error", status := "error",
         error := some ("Unknown message type: " ++ "toString") }] :=
  ⟨by decide, rfl, by decide⟩

/-- C9 (amended): an inbound request whose type is neither a recognized
handler type nor a key inherited from `Object.prototype` makes the protocol
boundary emit exactly one error event whose message references the
unrecognized type, and no other event; a type naming an inherited prototype
member is instead dispatched to that member and silently produces no
event. -/
theorem unknown_request_type_error_amended (h : String → List WorkerMessageOut)
    (t : String) (hu : t ∉ recognizedTypes) (hp : t ∉ objectPrototypeKeys) :
    messageListener h t =
      [{ msgType := "error", status := "error",
         error := some ("Unknown message type: " ++ t) }] ∧
    (messageListener h t).length = 1 := by
  rw [messageListener, if_neg hu, if_neg hp]
  exact ⟨rfl, rfl⟩

/-- C9 witness: the unknown request type "frobnicate" is neither a handler
name nor an inherited prototype key. -/
theorem unknown_request_type_error_amended_witness :
    messageListener (fun _ => []) "frobnicate" =
      [{ msgType := "error", status := "error",
         error := some ("Unknown message type: " ++ "frobnicate") }] ∧
    (messageListener (fun _ => []) "frobnicate").length = 1 :=
  unknown_request_type_error_amended (fun _ => []) "frobnicate" (by decide) (by decide)

/-- C10: `getSession` on an identifier that already has a session returns
that session and leaves the state unchanged, whatever custom system message
is passed: the custom system message only takes effect at creation and is
silently ignored on an existing session. -/
theorem getSession_ignores_custom_on_existing {C : Type} (st : PipelineState C)
    (id : String) (custom : Option String) (now : ℕ) (s : SessionData C)
    (hs : storeGet st.sessions id = some s) :
    getSession st id custom now = (s, st) :=
  getSession_existing_eq custom now hs

/-- C10 witness: a custom system message on an existing session is ignored. -/
theorem getSession_ignores_custom_on_existing_witness :
    @getSession ℕ
        ⟨true, true, DEFAULT_GENERATION_CONFIG,
          [("default", ⟨[DEFAULT_SYSTEM_MESSAGE], none, 0⟩)]⟩
        "default" (some "You are a pirate.") 9 =
      (⟨[DEFAULT_SYSTEM_MESSAGE], none, 0⟩,
       ⟨true, true, DEFAULT_GENERATION_CONFIG,
         [("default", ⟨[DEFAULT_SYSTEM_MESSAGE], none, 0⟩)]⟩) :=
  getSession_ignores_custom_on_existing
    ⟨true, true, DEFAULT_GENERATION_CONFIG,
      [("default", ⟨[DEFAULT_SYSTEM_MESSAGE], none, 0⟩)]⟩
    "default" (some "You are a pirate.") 9 ⟨[DEFAULT_SYSTEM_MESSAGE], none, 0⟩
    rfl

end LLMWorker
